import Mathlib

/-!
# ogls: the rotating-triangle demo (`src/main.cpp`)

A shallow embedding of `main.cpp`.

* Scalars.  The program computes in `float`.  The embedding is generic in a
  field `α` of scalars and computes exactly in it; the transcendental
  functions the code reaches through glm (`cos`, `sin`, `tan`, `sqrt`) are
  passed in as a record `LibM α`.  Theorems are stated for every `LibM`
  obeying the usual identities (`LibM.Exact`), and instantiated at the real
  functions `Real.cos`, `Real.sin`, `Real.tan`, `Real.sqrt`.  Rounding is not
  modelled.
* glm.  `glm::radians`, `glm::normalize`, `glm::scale`, `glm::rotate`,
  `glm::perspective`, `glm::lookAt` and `mat4 * mat4` are transcribed from the
  glm headers the program includes (column-major; `m.c1.z` is `m[1][2]`).
* Outside world.  The answers of GLFW/glad/GL and of the clock are inputs:
  `Env` for start-up, one `FrameInput` per render-loop iteration.  The calls
  the loop issues are recorded in `State.log`.
-/

namespace Ogls

/-! ## Vectors and matrices (glm) -/

/-- Three-component vector, `glm::vec3`. -/
@[ext]
structure Vec3 (α : Type) where
  x : α
  y : α
  z : α
deriving DecidableEq, Repr

/-- Four-component vector, `glm::vec4`; one column of a `glm::mat4`. -/
@[ext]
structure Vec4 (α : Type) where
  x : α
  y : α
  z : α
  w : α
deriving DecidableEq, Repr

/-- Column-major 4x4 matrix, `glm::mat4`: `c0 .. c3` are the columns `m[0] .. m[3]`. -/
@[ext]
structure Mat4 (α : Type) where
  c0 : Vec4 α
  c1 : Vec4 α
  c2 : Vec4 α
  c3 : Vec4 α
deriving DecidableEq, Repr

/-- Transcendental functions the program reaches through glm (`<cmath>`). -/
structure LibM (α : Type) where
  cos : α → α
  sin : α → α
  tan : α → α
  sqrt : α → α

section Glm

variable {α : Type} [Field α]

/-- Componentwise `vec3 - vec3`. -/
def Vec3.sub (a b : Vec3 α) : Vec3 α := ⟨a.x - b.x, a.y - b.y, a.z - b.z⟩

/-- Scaling `vec3 * scalar`. -/
def Vec3.smul (a : Vec3 α) (k : α) : Vec3 α := ⟨a.x * k, a.y * k, a.z * k⟩

/-- Componentwise `vec4 + vec4`. -/
def Vec4.add (a b : Vec4 α) : Vec4 α := ⟨a.x + b.x, a.y + b.y, a.z + b.z, a.w + b.w⟩

/-- Scaling `vec4 * scalar`. -/
def Vec4.smul (a : Vec4 α) (k : α) : Vec4 α := ⟨a.x * k, a.y * k, a.z * k, a.w * k⟩

/-- Dot product `glm::dot` on `vec3`. -/
def dot (a b : Vec3 α) : α := a.x * b.x + a.y * b.y + a.z * b.z

/-- Cross product `glm::cross`. -/
def cross (a b : Vec3 α) : Vec3 α :=
  ⟨a.y * b.z - b.y * a.z, a.z * b.x - b.z * a.x, a.x * b.y - b.x * a.y⟩

/-- Inverse square root `glm::inversesqrt(x) = 1 / sqrt(x)`. -/
def inversesqrt (L : LibM α) (x : α) : α := 1 / L.sqrt x

/-- Unit vector `glm::normalize(v) = v * inversesqrt(dot(v, v))`. -/
def normalize (L : LibM α) (v : Vec3 α) : Vec3 α := v.smul (inversesqrt L (dot v v))

/-- Degrees to radians, `glm::radians(degrees) = degrees * 0.01745329251994329576923690768489`. -/
def radians (degrees : α) : α := degrees * 0.01745329251994329576923690768489

/-- Diagonal matrix `glm::mat4(s)`. -/
def Mat4.diag (s : α) : Mat4 α :=
  ⟨⟨s, 0, 0, 0⟩, ⟨0, s, 0, 0⟩, ⟨0, 0, s, 0⟩, ⟨0, 0, 0, s⟩⟩

/-- Matrix product `m1 * m2` of glm: column `j` of the result is
`m1[0] * m2[j][0] + m1[1] * m2[j][1] + m1[2] * m2[j][2] + m1[3] * m2[j][3]`. -/
def Mat4.mul (m1 m2 : Mat4 α) : Mat4 α :=
  let col (b : Vec4 α) : Vec4 α :=
    (((m1.c0.smul b.x).add (m1.c1.smul b.y)).add (m1.c2.smul b.z)).add (m1.c3.smul b.w)
  ⟨col m2.c0, col m2.c1, col m2.c2, col m2.c3⟩

/-- Scale transform `glm::scale(m, v)`. -/
def scale (m : Mat4 α) (v : Vec3 α) : Mat4 α :=
  ⟨m.c0.smul v.x, m.c1.smul v.y, m.c2.smul v.z, m.c3⟩

/-- The 3x3 matrix `Rotate` that `glm::rotate` builds from the angle and the
axis, stored in the upper-left block of a `Mat4` (fourth column and row
are those of the identity, so that it can be used as a factor). -/
def rotationMatrix (L : LibM α) (angle : α) (v : Vec3 α) : Mat4 α :=
  let c := L.cos angle
  let s := L.sin angle
  let axis := normalize L v
  let temp := axis.smul (1 - c)
  ⟨⟨c + temp.x * axis.x, temp.x * axis.y + s * axis.z, temp.x * axis.z - s * axis.y, 0⟩,
   ⟨temp.y * axis.x - s * axis.z, c + temp.y * axis.y, temp.y * axis.z + s * axis.x, 0⟩,
   ⟨temp.z * axis.x + s * axis.y, temp.z * axis.y - s * axis.x, c + temp.z * axis.z, 0⟩,
   ⟨0, 0, 0, 1⟩⟩

/-- Rotation `glm::rotate(m, angle, v)`:
`Result[i] = m[0] * Rotate[i][0] + m[1] * Rotate[i][1] + m[2] * Rotate[i][2]`
for `i < 3` and `Result[3] = m[3]`. -/
def rotate (L : LibM α) (m : Mat4 α) (angle : α) (v : Vec3 α) : Mat4 α :=
  let c := L.cos angle
  let s := L.sin angle
  let axis := normalize L v
  let temp := axis.smul (1 - c)
  let r00 := c + temp.x * axis.x
  let r01 := temp.x * axis.y + s * axis.z
  let r02 := temp.x * axis.z - s * axis.y
  let r10 := temp.y * axis.x - s * axis.z
  let r11 := c + temp.y * axis.y
  let r12 := temp.y * axis.z + s * axis.x
  let r20 := temp.z * axis.x + s * axis.y
  let r21 := temp.z * axis.y - s * axis.x
  let r22 := c + temp.z * axis.z
  ⟨((m.c0.smul r00).add (m.c1.smul r01)).add (m.c2.smul r02),
   ((m.c0.smul r10).add (m.c1.smul r11)).add (m.c2.smul r12),
   ((m.c0.smul r20).add (m.c1.smul r21)).add (m.c2.smul r22),
   m.c3⟩

/-- Projection `glm::perspective(fovy, aspect, zNear, zFar)` (right-handed,
depth range -1..1, the glm default). -/
def perspective (L : LibM α) (fovy aspect zNear zFar : α) : Mat4 α :=
  let tanHalfFovy := L.tan (fovy / 2)
  ⟨⟨1 / (aspect * tanHalfFovy), 0, 0, 0⟩,
   ⟨0, 1 / tanHalfFovy, 0, 0⟩,
   ⟨0, 0, -(zFar + zNear) / (zFar - zNear), -1⟩,
   ⟨0, 0, -(2 * zFar * zNear) / (zFar - zNear), 0⟩⟩

/-- Camera matrix `glm::lookAt(eye, center, up)` (right-handed, the glm default). -/
def lookAt (L : LibM α) (eye center up : Vec3 α) : Mat4 α :=
  let f := normalize L (center.sub eye)
  let s := normalize L (cross f up)
  let u := cross s f
  ⟨⟨s.x, u.x, -f.x, 0⟩,
   ⟨s.y, u.y, -f.y, 0⟩,
   ⟨s.z, u.z, -f.z, 0⟩,
   ⟨-dot s eye, -dot u eye, dot f eye, 1⟩⟩

end Glm

/-! ## GLFW, GL and process constants -/

/-- Key code of Escape in `GLFW/glfw3.h`. -/
def GLFW_KEY_ESCAPE : Int := 256

/-- Key action and key state "pressed" in `GLFW/glfw3.h`. -/
def GLFW_PRESS : Int := 1

/-- Truth value of `GLFW/glfw3.h`. -/
def GLFW_TRUE : Int := 1

/-- Error code "no error" of GL. -/
def GL_NO_ERROR : Nat := 0

/-- Exit status `EXIT_FAILURE` of `<cstdlib>`. -/
def EXIT_FAILURE : Int := 1

/-- Exit status `EXIT_SUCCESS` of `<cstdlib>`. -/
def EXIT_SUCCESS : Int := 0

/-- Window width (`const auto WIDTH = 640`). -/
def WIDTH : Int := 640

/-- Window height (`const auto HEIGHT = 480`). -/
def HEIGHT : Int := 480

/-! ## The window, the events and the call log -/

/-- The part of a `GLFWwindow` the program reads and writes: the close flag. -/
structure Window where
  shouldClose : Bool
deriving DecidableEq, Repr

/-- Library call `glfwSetWindowShouldClose(window, value)`: the flag becomes `value != 0`. -/
def glfwSetWindowShouldClose (window : Window) (value : Int) : Window :=
  { window with shouldClose := decide (value ≠ 0) }

/-- Library call `glfwWindowShouldClose(window)`. -/
def glfwWindowShouldClose (window : Window) : Bool := window.shouldClose

/-- Key callback `key_callback` (`main.cpp` lines 58-62). -/
def key_callback (window : Window) (key _scancode action _mods : Int) : Window :=
  if key = GLFW_KEY_ESCAPE ∧ action = GLFW_PRESS then
    glfwSetWindowShouldClose window GLFW_TRUE
  else
    window

/-- What `glfwPollEvents` can deliver to this program: a key event, which is
handed to the registered `key_callback`, or a close request of the user, on
which GLFW itself sets the close flag. -/
inductive Event where
  | key (key scancode action mods : Int)
  | close
deriving DecidableEq, Repr

/-- One observable step of the render loop. -/
inductive Call (α : Type) where
  | glfwWindowShouldClose (result : Bool)
  | glfwGetKey (key : Int) (result : Int)
  | glfwSetWindowShouldClose (value : Int)
  | glClear
  | glUseProgram
  | glBindVertexArray
  | glUniformMatrix4fv (value : Mat4 α)
  | glDrawArrays (first count : Nat)
  | glfwSwapBuffers
  | glfwPollEvents
  | delivered (e : Event)
  | sleep_for (ms : Nat)
  | glfwDestroyWindow
  | glfwTerminate
deriving DecidableEq, Repr

/-- Delivery of one event by GLFW. -/
def deliver (window : Window) : Event → Window
  | .key key scancode action mods => key_callback window key scancode action mods
  | .close => glfwSetWindowShouldClose window GLFW_TRUE

/-- Library call `glfwPollEvents()`: the pending events are delivered in order. -/
def glfwPollEvents (window : Window) (events : List Event) : Window :=
  events.foldl deliver window

/-! ## The program state and the render loop -/

/-- Answers of the outside world during one iteration of the render loop. -/
structure FrameInput where
  /-- Clock reading of line 204, in nanoseconds since the clock epoch. -/
  now1 : Int
  /-- Clock reading of line 206. -/
  now2 : Int
  /-- Result of `glfwGetKey(window, GLFW_KEY_ESCAPE)` at line 208. -/
  escapeState : Int
  /-- Events delivered by `glfwPollEvents` at line 222. -/
  events : List Event
deriving DecidableEq, Repr

/-- Variables of `main` that are live in the render loop. `startTime` and
`endTime` are nanoseconds since the clock epoch. `log` records the calls issued
and `times` the successive values of the local `time` (milliseconds); both
are history variables, read by no code. -/
structure State (α : Type) where
  window : Window
  startTime : Int
  endTime : Int
  projection : Mat4 α
  view : Mat4 α
  model : Mat4 α
  log : List (Call α)
  times : List α

section Program

variable {α : Type} [Field α]

/-- Value of `time` at line 205:
`std::chrono::duration<float, std::milli>(endTime - startTime).count()`, the
tick difference (nanoseconds) expressed in milliseconds. -/
def elapsedMillis (startTime endTime : Int) : α := ((endTime - startTime : Int) : α) / 1000000

/-- State on reaching the render loop (`main.cpp` lines 186-197): both time
points are default-constructed, which is the clock epoch; the window has just
been created. -/
def setup (L : LibM α) : State α :=
  { window := ⟨false⟩
    startTime := 0
    endTime := 0
    projection := perspective L (radians 70) ((WIDTH : α) / (HEIGHT : α)) 0.01 1000
    view := lookAt L ⟨0, 0, 2⟩ ⟨0, 0, 0⟩ ⟨0, 1, 0⟩
    model := scale (Mat4.diag 1) ⟨0.5, 0.5, 0.5⟩
    log := []
    times := [] }

/-- Body of the render loop (`main.cpp` lines 204-226). -/
def loopBody (L : LibM α) (s : State α) (i : FrameInput) : State α :=
  let endTime := i.now1
  let time : α := elapsedMillis s.startTime endTime
  let startTime := i.now2
  let pressed : Bool := decide (i.escapeState = GLFW_PRESS)
  let window1 := if pressed then glfwSetWindowShouldClose s.window 1 else s.window
  let log1 := s.log ++ [Call.glfwGetKey GLFW_KEY_ESCAPE i.escapeState]
    ++ (if pressed then [Call.glfwSetWindowShouldClose 1] else [])
  let model := rotate L s.model (radians (0.05 * time)) ⟨0, 1, 0⟩
  let mvp := (s.projection.mul s.view).mul model
  let log2 := log1 ++ [Call.glClear, Call.glUseProgram, Call.glBindVertexArray,
    Call.glUniformMatrix4fv mvp, Call.glDrawArrays 0 3, Call.glfwSwapBuffers,
    Call.glfwPollEvents]
  let window2 := glfwPollEvents window1 i.events
  let log3 := log2 ++ i.events.map Call.delivered ++ [Call.sleep_for 16]
  { window := window2
    startTime := startTime
    endTime := endTime
    projection := s.projection
    view := s.view
    model := model
    log := log3
    times := s.times ++ [time] }

/-- Result of running the render loop on finitely many frame inputs. -/
structure LoopResult (α : Type) where
  /-- State reached. -/
  state : State α
  /-- Whether the loop condition was found false, that is, the loop was left. -/
  exited : Bool

/-- Render loop `while (!glfwWindowShouldClose(window)) { ... }`
(`main.cpp` lines 202-227), run until the condition fails or the supplied
frame inputs are used up. -/
def renderLoop (L : LibM α) (s : State α) : List FrameInput → LoopResult α
  | [] =>
    if glfwWindowShouldClose s.window then
      ⟨{ s with log := s.log ++ [Call.glfwWindowShouldClose true] }, true⟩
    else
      ⟨s, false⟩
  | i :: rest =>
    if glfwWindowShouldClose s.window then
      ⟨{ s with log := s.log ++ [Call.glfwWindowShouldClose true] }, true⟩
    else
      renderLoop L
        (loopBody L { s with log := s.log ++ [Call.glfwWindowShouldClose false] } i) rest

/-- Answers of the outside world to a whole run of the program. -/
structure Env where
  /-- Whether `glfwInit()` succeeds. -/
  glfwInit : Bool
  /-- Whether `glfwCreateWindow` returns a window. -/
  glfwCreateWindow : Bool
  /-- Whether `gladLoadGL` resolves the entry points. -/
  gladLoadGL : Bool
  /-- Result of the `glGetError()` of line 107. -/
  glGetError : Nat
  /-- Inputs of the successive iterations of the render loop. -/
  frames : List FrameInput
deriving DecidableEq, Repr

/-- How a run ends: the process exits with a status, or the supplied frame
inputs are used up with the render loop still running. -/
inductive Outcome (α : Type) where
  | exit (code : Int) (log : List (Call α))
  | running (s : State α)

/-- Program `main` (`main.cpp` lines 77-233). Shader, buffer and vertex-array
set-up (lines 114-185) issues GL calls whose results the code never inspects
and is left out, as is the text written to the standard streams. -/
def main (L : LibM α) (env : Env) : Outcome α :=
  if !env.glfwInit then
    Outcome.exit EXIT_FAILURE []
  else if !env.glfwCreateWindow then
    Outcome.exit EXIT_FAILURE [Call.glfwTerminate]
  else if !env.gladLoadGL then
    Outcome.exit EXIT_FAILURE []
  else if env.glGetError ≠ GL_NO_ERROR then
    Outcome.exit EXIT_FAILURE []
  else
    let r := renderLoop L (setup L) env.frames
    if r.exited then
      Outcome.exit EXIT_SUCCESS (r.state.log ++ [Call.glfwDestroyWindow, Call.glfwTerminate])
    else
      Outcome.running r.state

end Program

/-! ## Vocabulary of the specification -/

section Vocabulary

variable {α : Type}

/-- The matrices uploaded by `glUniformMatrix4fv`, in order. -/
def uploads : List (Call α) → List (Mat4 α)
  | [] => []
  | Call.glUniformMatrix4fv m :: rest => m :: uploads rest
  | _ :: rest => uploads rest

/-- Whether a step is a draw call `glDrawArrays`. -/
def Call.isDraw : Call α → Bool
  | Call.glDrawArrays _ _ => true
  | _ => false

/-- Whether an event makes the window close: a close request, or Escape pressed. -/
def Event.isQuit : Event → Bool
  | Event.key k _ a _ => decide (k = GLFW_KEY_ESCAPE ∧ a = GLFW_PRESS)
  | Event.close => true

/-- Whether a step is the observation of a close request or of a pressed
Escape key: the key poll of line 208 answering "pressed", or the delivery of
a quitting event. -/
def Call.isSignal : Call α → Bool
  | Call.glfwGetKey key result => decide (key = GLFW_KEY_ESCAPE ∧ result = GLFW_PRESS)
  | Call.delivered e => e.isQuit
  | _ => false

/-- Whether a frame input carries a close request or a pressed Escape key. -/
def FrameInput.quits (i : FrameInput) : Bool :=
  decide (i.escapeState = GLFW_PRESS) || i.events.any Event.isQuit

/-- The calls one iteration of the render loop issues, given the matrix it
uploads and its frame input (`main.cpp` lines 208-226, in order). -/
def frameCalls (mvp : Mat4 α) (i : FrameInput) : List (Call α) :=
  [Call.glfwGetKey GLFW_KEY_ESCAPE i.escapeState]
    ++ (if i.escapeState = GLFW_PRESS then [Call.glfwSetWindowShouldClose 1] else [])
    ++ [Call.glClear, Call.glUseProgram, Call.glBindVertexArray, Call.glUniformMatrix4fv mvp,
      Call.glDrawArrays 0 3, Call.glfwSwapBuffers, Call.glfwPollEvents]
    ++ i.events.map Call.delivered ++ [Call.sleep_for 16]

/-- The frames a run of the render loop executes: the supplied frames up
to and including the first one that carries a quit signal (the loop condition
fails after it). -/
def executedFrames : List FrameInput → List FrameInput
  | [] => []
  | i :: rest => if i.quits then [i] else i :: executedFrames rest

/-- Ten frame inputs, the clock advancing by 16 ms from one frame to the
next (both clock readings of a frame equal), no key pressed, no event. -/
def tenFrames : List FrameInput :=
  [⟨16000000, 16000000, 0, []⟩, ⟨32000000, 32000000, 0, []⟩, ⟨48000000, 48000000, 0, []⟩,
   ⟨64000000, 64000000, 0, []⟩, ⟨80000000, 80000000, 0, []⟩, ⟨96000000, 96000000, 0, []⟩,
   ⟨112000000, 112000000, 0, []⟩, ⟨128000000, 128000000, 0, []⟩,
   ⟨144000000, 144000000, 0, []⟩, ⟨160000000, 160000000, 0, []⟩]

end Vocabulary

/-! ## Laws of the scalar functions -/

section Laws

variable {α : Type} [LinearOrderedField α]

/-- Identities of exact trigonometry and square root that the proofs use. -/
structure LibM.Exact (L : LibM α) : Prop where
  cos_zero : L.cos 0 = 1
  sin_zero : L.sin 0 = 0
  cos_add : ∀ a b, L.cos (a + b) = L.cos a * L.cos b - L.sin a * L.sin b
  sin_add : ∀ a b, L.sin (a + b) = L.sin a * L.cos b + L.cos a * L.sin b
  cos_sq_add_sin_sq : ∀ a, L.cos a * L.cos a + L.sin a * L.sin a = 1
  sqrt_mul_self : ∀ x, 0 ≤ x → L.sqrt (x * x) = x

/-- Rotation about the Y axis with cosine `c` and sine `s`, as a matrix. -/
def rotationY (c s : α) : Mat4 α :=
  ⟨⟨c, 0, -s, 0⟩, ⟨0, 1, 0, 0⟩, ⟨s, 0, c, 0⟩, ⟨0, 0, 0, 1⟩⟩

/-- Whether `m` is a linear map that is a proper rotation scaled uniformly by
`k`: last row `(0,0,0,1)`, no translation, upper-left 3x3 block `R` with
`transpose R * R = k^2 * I` and `det R = k^3`. -/
def IsScaledRotation (k : α) (m : Mat4 α) : Prop :=
  m.c0.w = 0 ∧ m.c1.w = 0 ∧ m.c2.w = 0 ∧ m.c3 = ⟨0, 0, 0, 1⟩ ∧
  m.c0.x * m.c0.x + m.c0.y * m.c0.y + m.c0.z * m.c0.z = k * k ∧
  m.c1.x * m.c1.x + m.c1.y * m.c1.y + m.c1.z * m.c1.z = k * k ∧
  m.c2.x * m.c2.x + m.c2.y * m.c2.y + m.c2.z * m.c2.z = k * k ∧
  m.c0.x * m.c1.x + m.c0.y * m.c1.y + m.c0.z * m.c1.z = 0 ∧
  m.c0.x * m.c2.x + m.c0.y * m.c2.y + m.c0.z * m.c2.z = 0 ∧
  m.c1.x * m.c2.x + m.c1.y * m.c2.y + m.c1.z * m.c2.z = 0 ∧
  m.c0.x * (m.c1.y * m.c2.z - m.c2.y * m.c1.z)
    - m.c1.x * (m.c0.y * m.c2.z - m.c2.y * m.c0.z)
    + m.c2.x * (m.c0.y * m.c1.z - m.c1.y * m.c0.z) = k * k * k

end Laws

/-! ## Lemmas on the glm operations -/

section GlmLemmas

variable {α : Type} [LinearOrderedField α]

theorem LibM.Exact.sqrt_one {L : LibM α} (hL : L.Exact) : L.sqrt 1 = 1 := by
  have h := hL.sqrt_mul_self 1 zero_le_one
  simpa using h

theorem normalize_unitY {L : LibM α} (hL : L.Exact) :
    normalize L (⟨0, 1, 0⟩ : Vec3 α) = ⟨0, 1, 0⟩ := by
  simp [normalize, inversesqrt, dot, Vec3.smul, hL.sqrt_one]

theorem rotate_eq_mul (L : LibM α) (m : Mat4 α) (angle : α) (v : Vec3 α) :
    rotate L m angle v = m.mul (rotationMatrix L angle v) := by
  simp only [rotate, rotationMatrix, Mat4.mul, Vec4.add, Vec4.smul]
  ext <;> simp

theorem rotationMatrix_unitY {L : LibM α} (hL : L.Exact) (angle : α) :
    rotationMatrix L angle ⟨0, 1, 0⟩ = rotationY (L.cos angle) (L.sin angle) := by
  simp [rotationMatrix, rotationY, normalize_unitY hL, Vec3.smul]

theorem rotate_unitY {L : LibM α} (hL : L.Exact) (m : Mat4 α) (angle : α) :
    rotate L m angle ⟨0, 1, 0⟩ =
      ⟨(m.c0.smul (L.cos angle)).add (m.c2.smul (-L.sin angle)), m.c1,
       (m.c0.smul (L.sin angle)).add (m.c2.smul (L.cos angle)), m.c3⟩ := by
  simp only [rotate, normalize_unitY hL, Vec4.add, Vec4.smul, Vec3.smul]
  ext <;> simp

theorem rotate_zero {L : LibM α} (hL : L.Exact) (m : Mat4 α) :
    rotate L m 0 ⟨0, 1, 0⟩ = m := by
  rw [rotate_unitY hL]
  simp only [Vec4.add, Vec4.smul, hL.cos_zero, hL.sin_zero]
  ext <;> simp

theorem rotate_rotate {L : LibM α} (hL : L.Exact) (m : Mat4 α) (a b : α) :
    rotate L (rotate L m a ⟨0, 1, 0⟩) b ⟨0, 1, 0⟩ = rotate L m (a + b) ⟨0, 1, 0⟩ := by
  rw [rotate_unitY hL, rotate_unitY hL, rotate_unitY hL]
  simp only [Vec4.add, Vec4.smul, hL.cos_add, hL.sin_add]
  ext <;> simp <;> ring

/-- The camera of the program, written out: the identity moved by `(0,0,-2)`. -/
theorem lookAt_camera {L : LibM α} (hL : L.Exact) :
    lookAt L ⟨0, 0, 2⟩ ⟨0, 0, 0⟩ ⟨0, 1, 0⟩ =
      ⟨⟨1, 0, 0, 0⟩, ⟨0, 1, 0, 0⟩, ⟨0, 0, 1, 0⟩, ⟨0, 0, -2, 1⟩⟩ := by
  have h4 : L.sqrt (2 * 2) = 2 := hL.sqrt_mul_self 2 (by norm_num)
  have hf : normalize L (Vec3.sub (⟨0, 0, 0⟩ : Vec3 α) ⟨0, 0, 2⟩) = ⟨0, 0, -1⟩ := by
    simp [normalize, inversesqrt, dot, Vec3.smul, Vec3.sub, h4]
  have hc : cross (⟨0, 0, -1⟩ : Vec3 α) ⟨0, 1, 0⟩ = ⟨1, 0, 0⟩ := by
    simp [cross]
  have hs : normalize L (⟨1, 0, 0⟩ : Vec3 α) = ⟨1, 0, 0⟩ := by
    simp [normalize, inversesqrt, dot, Vec3.smul, hL.sqrt_one]
  simp [lookAt, hf, hc, hs, cross, dot]

theorem radians_add (a b : α) : radians (a + b) = radians a + radians b := by
  simp only [radians]; ring

end GlmLemmas

/-! ## Lemmas on the render loop -/

section LogLemmas

variable {α : Type}

theorem uploads_append (l1 l2 : List (Call α)) :
    uploads (l1 ++ l2) = uploads l1 ++ uploads l2 := by
  induction l1 with
  | nil => rfl
  | cons c rest ih => cases c <;> simp [uploads, ih]

theorem uploads_delivered (es : List Event) :
    uploads (es.map (Call.delivered : Event → Call α)) = [] := by
  induction es with
  | nil => rfl
  | cons e rest ih => simpa [uploads] using ih

end LogLemmas

section LoopLemmas

variable {α : Type} [LinearOrderedField α]

theorem loopBody_model (L : LibM α) (s : State α) (i : FrameInput) :
    (loopBody L s i).model =
      rotate L s.model (radians (0.05 * elapsedMillis s.startTime i.now1)) ⟨0, 1, 0⟩ := rfl

theorem loopBody_times (L : LibM α) (s : State α) (i : FrameInput) :
    (loopBody L s i).times = s.times ++ [elapsedMillis s.startTime i.now1] := rfl

theorem loopBody_projection (L : LibM α) (s : State α) (i : FrameInput) :
    (loopBody L s i).projection = s.projection := rfl

theorem loopBody_view (L : LibM α) (s : State α) (i : FrameInput) :
    (loopBody L s i).view = s.view := rfl

theorem loopBody_window (L : LibM α) (s : State α) (i : FrameInput) :
    (loopBody L s i).window =
      glfwPollEvents
        (if i.escapeState = GLFW_PRESS then glfwSetWindowShouldClose s.window 1 else s.window)
        i.events := by
  simp [loopBody]

/-- Invariants of the loop carry over to the state the loop reaches. -/
theorem renderLoop_induct (L : LibM α) (P : State α → Prop)
    (hlog : ∀ s l, P s → P { s with log := l })
    (hbody : ∀ s i, P s → P (loopBody L s i))
    (frames : List FrameInput) (s : State α) (hs : P s) :
    P (renderLoop L s frames).state := by
  induction frames generalizing s with
  | nil =>
    unfold renderLoop
    split
    · exact hlog _ _ hs
    · exact hs
  | cons i rest ih =>
    unfold renderLoop
    split
    · exact hlog _ _ hs
    · exact ih _ (hbody _ _ (hlog _ _ hs))

/-- Accumulated rotation: along the loop the model stays the starting matrix
rotated by `0.05` degrees per recorded millisecond. -/
theorem renderLoop_model {L : LibM α} (hL : L.Exact) (M0 : Mat4 α) (frames : List FrameInput)
    (s : State α)
    (hs : s.model = rotate L M0 (radians (0.05 * s.times.sum)) ⟨0, 1, 0⟩) :
    (renderLoop L s frames).state.model =
      rotate L M0 (radians (0.05 * (renderLoop L s frames).state.times.sum)) ⟨0, 1, 0⟩ := by
  refine renderLoop_induct L
    (fun t => t.model = rotate L M0 (radians (0.05 * t.times.sum)) ⟨0, 1, 0⟩)
    (fun _ _ ht => ht) ?_ frames s hs
  intro t i ht
  simp only [loopBody_model, loopBody_times, ht, rotate_rotate hL, ← radians_add,
    List.sum_append, List.sum_cons, List.sum_nil, add_zero, mul_add]

theorem setup_model_formula {L : LibM α} (hL : L.Exact) :
    (setup L).model =
      rotate L (scale (Mat4.diag 1) ⟨0.5, 0.5, 0.5⟩) (radians (0.05 * (setup L).times.sum))
        ⟨0, 1, 0⟩ := by
  have h : radians (0.05 * (setup L).times.sum) = (0 : α) := by simp [setup, radians]
  rw [h, rotate_zero hL]
  rfl

theorem isScaledRotation_rotate {L : LibM α} (hL : L.Exact) (k : α) (m : Mat4 α) (a : α)
    (h : IsScaledRotation k m) : IsScaledRotation k (rotate L m a ⟨0, 1, 0⟩) := by
  obtain ⟨h0, h1, h2, h3, h00, h11, h22, h01, h02, h12, hdet⟩ := h
  have p := hL.cos_sq_add_sin_sq a
  rw [rotate_unitY hL]
  simp only [IsScaledRotation, Vec4.add, Vec4.smul]
  refine ⟨by simp [h0, h2], h1, by simp [h0, h2], h3, ?_, h11, ?_, ?_, ?_, ?_, ?_⟩
  · linear_combination L.cos a * L.cos a * h00 + L.sin a * L.sin a * h22
      - 2 * L.cos a * L.sin a * h02 + k * k * p
  · linear_combination L.sin a * L.sin a * h00 + L.cos a * L.cos a * h22
      + 2 * L.cos a * L.sin a * h02 + k * k * p
  · linear_combination L.cos a * h01 - L.sin a * h12
  · linear_combination L.cos a * L.sin a * h00 - L.cos a * L.sin a * h22
      + (L.cos a * L.cos a - L.sin a * L.sin a) * h02
  · linear_combination L.sin a * h01 + L.cos a * h12
  · linear_combination (L.cos a * L.cos a + L.sin a * L.sin a) * hdet + k * k * k * p

theorem isScaledRotation_setup (L : LibM α) : IsScaledRotation 0.5 (setup L).model := by
  simp only [IsScaledRotation, setup, scale, Mat4.diag, Vec4.smul]
  norm_num

end LoopLemmas

/-! ## The real functions obey the laws -/

theorem real_exact : LibM.Exact (LibM.mk Real.cos Real.sin Real.tan Real.sqrt) where
  cos_zero := Real.cos_zero
  sin_zero := Real.sin_zero
  cos_add := Real.cos_add
  sin_add := Real.sin_add
  cos_sq_add_sin_sq := fun a => by
    have h := Real.cos_sq_add_sin_sq a
    simpa [sq] using h
  sqrt_mul_self := fun _ hx => Real.sqrt_mul_self hx

/-! ## Claims on one iteration of the render loop -/

section FrameClaims

variable {α : Type} [LinearOrderedField α]

/-- C1: one iteration of the render loop whose measured elapsed time is `dt`
milliseconds (any `dt`, in particular any `dt ≥ 0`) replaces the model matrix
`M` by `rotate(M, radians(0.05 * dt), (0,1,0))`, which is `M` multiplied on the
right by the rotation about the Y axis by that angle; the angle is additive
and homogeneous, hence linear, in `dt`. -/
theorem loopBody_rotates_model (L : LibM α) (hL : L.Exact) (s : State α) (i : FrameInput)
    (dt : α) (hdt : elapsedMillis s.startTime i.now1 = dt) :
    (loopBody L s i).model = rotate L s.model (radians (0.05 * dt)) ⟨0, 1, 0⟩ ∧
    (loopBody L s i).model =
      s.model.mul (rotationY (L.cos (radians (0.05 * dt))) (L.sin (radians (0.05 * dt)))) ∧
    (∀ a b : α, radians (0.05 * (a + b)) = radians (0.05 * a) + radians (0.05 * b)) ∧
    (∀ k a : α, radians (0.05 * (k * a)) = k * radians (0.05 * a)) := by
  refine ⟨?_, ?_, ?_, ?_⟩
  · rw [loopBody_model, hdt]
  · rw [loopBody_model, hdt, rotate_eq_mul, rotationMatrix_unitY hL]
  · intro a b
    simp only [radians]; ring
  · intro k a
    simp only [radians]; ring

/-- Witness of C1 over the reals: the first frame, entered 16 ms after the clock epoch. -/
theorem loopBody_rotates_model_witness :
    (loopBody (LibM.mk Real.cos Real.sin Real.tan Real.sqrt)
        (setup (LibM.mk Real.cos Real.sin Real.tan Real.sqrt)) ⟨16000000, 16000000, 0, []⟩).model =
      rotate (LibM.mk Real.cos Real.sin Real.tan Real.sqrt)
        (setup (LibM.mk Real.cos Real.sin Real.tan Real.sqrt)).model
        (radians (0.05 * 16)) ⟨0, 1, 0⟩ :=
  (loopBody_rotates_model (LibM.mk Real.cos Real.sin Real.tan Real.sqrt) real_exact
    (setup (LibM.mk Real.cos Real.sin Real.tan Real.sqrt)) ⟨16000000, 16000000, 0, []⟩ 16
    (by simp [elapsedMillis, setup]; norm_num)).1

/-- C2: in every iteration of the render loop, from any state and so also in
the first one, exactly one matrix is uploaded to the shader input `mvp`, and it
is `(projection * view) * model` for the model matrix this iteration has just
rotated, not the one the iteration started from. -/
theorem mvp_is_projection_view_model (L : LibM α) (s : State α) (i : FrameInput) :
    uploads (loopBody L s i).log =
      uploads s.log ++ [(s.projection.mul s.view).mul (loopBody L s i).model] ∧
    uploads (loopBody L s i).log =
      uploads s.log ++ [(s.projection.mul s.view).mul
        (rotate L s.model (radians (0.05 * elapsedMillis s.startTime i.now1)) ⟨0, 1, 0⟩)] ∧
    uploads (loopBody L (setup L) i).log =
      [((setup L).projection.mul (setup L).view).mul (loopBody L (setup L) i).model] := by
  have h : ∀ t : State α, uploads (loopBody L t i).log =
      uploads t.log ++ [(t.projection.mul t.view).mul (loopBody L t i).model] := by
    intro t
    simp only [loopBody, uploads_append, uploads_delivered]
    split <;> simp [uploads]
  refine ⟨h s, h s, ?_⟩
  rw [h (setup L)]
  simp [setup, uploads]

/-- C6: `key_callback` sets the close flag exactly on "Escape pressed" and
returns the window unchanged on every other key event; the key poll inside the
loop sets the flag when Escape is reported pressed and leaves the window as it
was otherwise, before the events of the iteration are delivered. -/
theorem escape_is_the_only_quit_key (L : LibM α) (s : State α) (i : FrameInput)
    (window : Window) (key scancode action mods : Int) :
    ((key_callback window key scancode action mods).shouldClose = true ↔
      (key = GLFW_KEY_ESCAPE ∧ action = GLFW_PRESS) ∨ window.shouldClose = true) ∧
    (¬ (key = GLFW_KEY_ESCAPE ∧ action = GLFW_PRESS) →
      key_callback window key scancode action mods = window) ∧
    (loopBody L s i).window =
      glfwPollEvents (if i.escapeState = GLFW_PRESS then ⟨true⟩ else s.window) i.events ∧
    (loopBody L s { i with events := [] }).window =
      (if i.escapeState = GLFW_PRESS then ⟨true⟩ else s.window) := by
  refine ⟨?_, ?_, ?_, ?_⟩
  · unfold key_callback
    split
    · rename_i h
      simp [glfwSetWindowShouldClose, GLFW_TRUE, h]
    · rename_i h
      simp [h]
  · intro h
    simp [key_callback, h]
  · rw [loopBody_window]
    simp [glfwSetWindowShouldClose]
  · rw [loopBody_window]
    simp [glfwSetWindowShouldClose, glfwPollEvents]

/-- C7: the state reached by the render loop after any number of iterations
has the projection `perspective(radians(70), 640/480, 0.01, 1000)` and the view
`lookAt((0,0,2), (0,0,0), (0,1,0))` that were set up before the loop, and one
iteration changes neither of them. -/
theorem projection_and_view_are_constant (L : LibM α) (frames : List FrameInput) :
    (renderLoop L (setup L) frames).state.projection =
      perspective L (radians 70) (640 / 480) 0.01 1000 ∧
    (renderLoop L (setup L) frames).state.view = lookAt L ⟨0, 0, 2⟩ ⟨0, 0, 0⟩ ⟨0, 1, 0⟩ ∧
    (∀ (s : State α) (i : FrameInput),
      (loopBody L s i).projection = s.projection ∧ (loopBody L s i).view = s.view) := by
  have h := renderLoop_induct L
    (fun t => t.projection = (setup L).projection ∧ t.view = (setup L).view)
    (fun _ _ ht => ht) (fun _ _ ht => ht) frames (setup L) ⟨rfl, rfl⟩
  refine ⟨?_, ?_, fun s i => ⟨rfl, rfl⟩⟩
  · rw [h.1]
    simp [setup, WIDTH, HEIGHT]
  · rw [h.2]
    simp [setup]

end FrameClaims

/-! ## Claims on the accumulated rotation -/

section RunLemmas

variable {α : Type} [LinearOrderedField α]

theorem tenFrames_times (L : LibM α) :
    (renderLoop L (setup L) tenFrames).state.times = List.replicate 10 16 := by
  simp [tenFrames, renderLoop, loopBody, setup, elapsedMillis, glfwWindowShouldClose,
    glfwPollEvents, GLFW_PRESS]
  norm_num

theorem setup_rotated_c0x {L : LibM α} (hL : L.Exact) (angle : α) :
    (rotate L (scale (Mat4.diag 1) ⟨0.5, 0.5, 0.5⟩) angle ⟨0, 1, 0⟩).c0.x = 0.5 * L.cos angle := by
  rw [rotate_unitY hL]
  simp [scale, Mat4.diag, Vec4.add, Vec4.smul]

end RunLemmas

theorem real_cos_radians_lt (a b : ℝ) (ha : 0 ≤ a) (hab : a < b) (hb : b ≤ 170) :
    Real.cos (radians b) < Real.cos (radians a) := by
  have hpi := Real.pi_gt_three
  apply Real.strictAntiOn_cos
  · simp only [Set.mem_Icc, radians]
    constructor <;> nlinarith
  · simp only [Set.mem_Icc, radians]
    constructor <;> nlinarith
  · simp only [radians]
    nlinarith

section RunClaims

variable {α : Type} [LinearOrderedField α]

theorem model_of_times {L : LibM α} (hL : L.Exact) (frames : List FrameInput) (ts : List α)
    (h : (renderLoop L (setup L) frames).state.times = ts) :
    (renderLoop L (setup L) frames).state.model =
      rotate L (scale (Mat4.diag 1) ⟨0.5, 0.5, 0.5⟩) (radians (0.05 * ts.sum)) ⟨0, 1, 0⟩ := by
  rw [← h]
  exact renderLoop_model hL _ frames (setup L) (setup_model_formula hL)

theorem elapsedMillis_nonneg (a b : Int) (h : a ≤ b) : (0 : α) ≤ elapsedMillis a b := by
  unfold elapsedMillis
  apply div_nonneg
  · exact_mod_cast Int.sub_nonneg_of_le h
  · norm_num

/-- C8: at start-up and after any number of iterations of the render loop,
whatever the elapsed times, the model matrix has last row `(0,0,0,1)`, no
translation, and an upper-left 3x3 block `R` with `transpose R * R = 0.25 * I`
and `det R = 0.125`: a proper rotation scaled uniformly by `0.5`. -/
theorem model_is_scaled_rotation (L : LibM α) (hL : L.Exact) (frames : List FrameInput) :
    IsScaledRotation 0.5 (setup L).model ∧
    IsScaledRotation 0.5 (renderLoop L (setup L) frames).state.model ∧
    (0.5 * 0.5 : α) = 0.25 ∧ (0.5 * 0.5 * 0.5 : α) = 0.125 :=
  ⟨isScaledRotation_setup L,
   renderLoop_induct L (fun t => IsScaledRotation 0.5 t.model) (fun _ _ ht => ht)
     (fun t i ht => by
       show IsScaledRotation 0.5 (loopBody L t i).model
       rw [loopBody_model]
       exact isScaledRotation_rotate hL _ _ _ ht)
     frames (setup L) (isScaledRotation_setup L), by norm_num, by norm_num⟩

/-- Witness of C8 over the reals, on ten frames 16 ms apart. -/
theorem model_is_scaled_rotation_witness :
    IsScaledRotation 0.5 (renderLoop (LibM.mk Real.cos Real.sin Real.tan Real.sqrt) (setup (LibM.mk Real.cos Real.sin Real.tan Real.sqrt)) tenFrames).state.model :=
  (model_is_scaled_rotation (LibM.mk Real.cos Real.sin Real.tan Real.sqrt) real_exact tenFrames).2.1

/-- C4, as the code has it: after 10 iterations that each measure an elapsed
time of 16 ms, the model matrix is `scale(0.5)` rotated about Y by 8 degrees
(10 * 0.05 * 16). -/
theorem ten_frames_rotate_eight_degrees (L : LibM α) (hL : L.Exact) (frames : List FrameInput)
    (h : (renderLoop L (setup L) frames).state.times = List.replicate 10 16) :
    (renderLoop L (setup L) frames).state.model =
      rotate L (scale (Mat4.diag 1) ⟨0.5, 0.5, 0.5⟩) (radians 8) ⟨0, 1, 0⟩ := by
  rw [model_of_times hL frames _ h]
  congr 2
  simp
  norm_num

/-- Witness of the amended C4 over the reals, on `tenFrames`. -/
theorem ten_frames_rotate_eight_degrees_witness :
    (renderLoop (LibM.mk Real.cos Real.sin Real.tan Real.sqrt) (setup (LibM.mk Real.cos Real.sin Real.tan Real.sqrt)) tenFrames).state.model =
      rotate (LibM.mk Real.cos Real.sin Real.tan Real.sqrt) (scale (Mat4.diag 1) ⟨0.5, 0.5, 0.5⟩) (radians 8) ⟨0, 1, 0⟩ :=
  ten_frames_rotate_eight_degrees (LibM.mk Real.cos Real.sin Real.tan Real.sqrt) real_exact tenFrames (tenFrames_times (LibM.mk Real.cos Real.sin Real.tan Real.sqrt))

end RunClaims

/-- C4 as stated fails: over the reals, the run on `tenFrames` performs 10
iterations of 16 ms each and its model matrix is not `scale(0.5)` rotated
about Y by 12.8 degrees. -/
theorem ten_frames_not_twelve_point_eight_degrees :
    (renderLoop (LibM.mk Real.cos Real.sin Real.tan Real.sqrt) (setup (LibM.mk Real.cos Real.sin Real.tan Real.sqrt)) tenFrames).state.times = List.replicate 10 16 ∧
    (renderLoop (LibM.mk Real.cos Real.sin Real.tan Real.sqrt) (setup (LibM.mk Real.cos Real.sin Real.tan Real.sqrt)) tenFrames).state.model ≠
      rotate (LibM.mk Real.cos Real.sin Real.tan Real.sqrt) (scale (Mat4.diag 1) ⟨0.5, 0.5, 0.5⟩) (radians 12.8) ⟨0, 1, 0⟩ := by
  refine ⟨tenFrames_times _, ?_⟩
  rw [model_of_times real_exact tenFrames _ (tenFrames_times _)]
  intro h
  have h2 := congrArg (fun m => m.c0.x) h
  simp only [setup_rotated_c0x real_exact] at h2
  have h3 : (0.05 * (List.replicate 10 (16 : ℝ)).sum) = 8 := by
    simp
    norm_num
  rw [h3] at h2
  have h4 := real_cos_radians_lt 8 12.8 (by norm_num) (by norm_num) (by norm_num)
  simp only at h4
  linarith

/-- C10 fails on the first iteration: `startTime` is default-constructed, so
the first elapsed time is the clock reading since the clock epoch. With the
clock at 1000 ms the first frame records 1000 ms and rotates the model away
from `scale(0.5)`. From the second iteration on, the elapsed time is the
difference between this iteration's first clock reading and the previous
iteration's second one, and it is non-negative when the clock does not run
backwards. -/
theorem first_frame_elapsed_is_clock_reading :
    (loopBody (LibM.mk Real.cos Real.sin Real.tan Real.sqrt) (setup (LibM.mk Real.cos Real.sin Real.tan Real.sqrt)) ⟨1000000000, 1000000000, 0, []⟩).times = [1000] ∧
    (loopBody (LibM.mk Real.cos Real.sin Real.tan Real.sqrt) (setup (LibM.mk Real.cos Real.sin Real.tan Real.sqrt)) ⟨1000000000, 1000000000, 0, []⟩).model ≠
      scale (Mat4.diag 1) ⟨0.5, 0.5, 0.5⟩ ∧
    (∀ (s : State ℝ) (i j : FrameInput),
      (loopBody (LibM.mk Real.cos Real.sin Real.tan Real.sqrt) (loopBody (LibM.mk Real.cos Real.sin Real.tan Real.sqrt) s i) j).times =
        s.times ++ [elapsedMillis s.startTime i.now1, elapsedMillis i.now2 j.now1]) ∧
    (∀ a b : Int, a ≤ b → (0 : ℝ) ≤ elapsedMillis a b) := by
  have ht : (elapsedMillis (setup (LibM.mk Real.cos Real.sin Real.tan Real.sqrt)).startTime 1000000000 : ℝ) = 1000 := by
    simp [elapsedMillis, setup]
    norm_num
  refine ⟨?_, ?_, ?_, elapsedMillis_nonneg⟩
  · rw [loopBody_times, ht]
    rfl
  · rw [loopBody_model, ht]
    intro h
    have h2 := congrArg (fun m => m.c0.x) h
    have h3 : (setup (LibM.mk Real.cos Real.sin Real.tan Real.sqrt)).model = scale (Mat4.diag 1) ⟨0.5, 0.5, 0.5⟩ := rfl
    simp only [h3, setup_rotated_c0x real_exact] at h2
    have h4 := real_cos_radians_lt 0 (0.05 * 1000) (by norm_num) (by norm_num) (by norm_num)
    have h5 : Real.cos (radians 0) = 1 := by simp [radians]
    rw [h5] at h4
    simp only [scale, Mat4.diag, Vec4.smul] at h2
    linarith
  · intro s i j
    simp [loopBody_times]
    rfl

/-! ## Claims on start-up, exit and the quit signal -/

theorem deliver_shouldClose (w : Window) (e : Event) :
    (deliver w e).shouldClose = (w.shouldClose || e.isQuit) := by
  cases e with
  | key k sc a m =>
    by_cases h : k = GLFW_KEY_ESCAPE ∧ a = GLFW_PRESS
    · simp [deliver, key_callback, Event.isQuit, h, glfwSetWindowShouldClose, GLFW_TRUE]
    · simp [deliver, key_callback, Event.isQuit, h]
  | close => simp [deliver, Event.isQuit, glfwSetWindowShouldClose, GLFW_TRUE]

theorem glfwPollEvents_shouldClose (w : Window) (es : List Event) :
    (glfwPollEvents w es).shouldClose = (w.shouldClose || es.any Event.isQuit) := by
  unfold glfwPollEvents
  induction es generalizing w with
  | nil => simp
  | cons e rest ih => simp [List.foldl_cons, ih, deliver_shouldClose, Bool.or_assoc]

section ExitClaims

variable {α : Type} [LinearOrderedField α]

theorem loopBody_shouldClose (L : LibM α) (s : State α) (i : FrameInput) :
    (loopBody L s i).window.shouldClose = (s.window.shouldClose || i.quits) := by
  rw [loopBody_window, glfwPollEvents_shouldClose, FrameInput.quits]
  by_cases h : i.escapeState = GLFW_PRESS
  · simp [h, glfwSetWindowShouldClose]
  · simp [h]

theorem renderLoop_exited (L : LibM α) (frames : List FrameInput) (s : State α) :
    (renderLoop L s frames).exited = (s.window.shouldClose || frames.any FrameInput.quits) := by
  induction frames generalizing s with
  | nil =>
    unfold renderLoop
    cases h : s.window.shouldClose <;> simp [glfwWindowShouldClose, h]
  | cons i rest ih =>
    unfold renderLoop
    cases h : s.window.shouldClose
    · simp [glfwWindowShouldClose, h, ih, loopBody_shouldClose]
    · simp [glfwWindowShouldClose, h]

/-- C5: when `glfwInit` fails, or no window is created, or `gladLoadGL` fails,
`main` exits with `EXIT_FAILURE`, which is not 0, having issued no call of
the render loop (at most `glfwTerminate`); when start-up succeeds, the render
loop is left exactly when some supplied frame carries a close request or a
pressed Escape, and whenever it is left `main` exits with `EXIT_SUCCESS`,
which is 0. -/
theorem exit_codes (L : LibM α) (env : Env) :
    ((env.glfwInit = false ∨ env.glfwCreateWindow = false ∨ env.gladLoadGL = false) →
      EXIT_FAILURE ≠ 0 ∧
      ∃ log : List (Call α), main L env = Outcome.exit EXIT_FAILURE log ∧
        ∀ c ∈ log, c = Call.glfwTerminate) ∧
    ((env.glfwInit = true ∧ env.glfwCreateWindow = true ∧ env.gladLoadGL = true ∧
        env.glGetError = GL_NO_ERROR) →
      ((renderLoop L (setup L) env.frames).exited = env.frames.any FrameInput.quits) ∧
      ((renderLoop L (setup L) env.frames).exited = true →
        EXIT_SUCCESS = 0 ∧
        ∃ log : List (Call α), main L env = Outcome.exit EXIT_SUCCESS log)) := by
  constructor
  · intro h
    refine ⟨by decide, ?_⟩
    by_cases h1 : env.glfwInit = false
    · exact ⟨[], by simp [main, h1], by simp⟩
    · by_cases h2 : env.glfwCreateWindow = false
      · exact ⟨[Call.glfwTerminate], by simp [main, h1, h2], by simp⟩
      · have h3 : env.gladLoadGL = false := by
          rcases h with h | h | h
          · exact absurd h h1
          · exact absurd h h2
          · exact h
        exact ⟨[], by simp [main, h1, h2, h3], by simp⟩
  · rintro ⟨h1, h2, h3, h4⟩
    refine ⟨?_, ?_⟩
    · rw [renderLoop_exited]
      simp [setup]
    · intro hx
      exact ⟨rfl, (renderLoop L (setup L) env.frames).state.log ++
        [Call.glfwDestroyWindow, Call.glfwTerminate], by simp [main, h1, h2, h3, h4, hx]⟩

end ExitClaims

section LogSplit

variable {α : Type}

/-- Splitting `A ++ B` at an element that does not occur in `A` splits `B`. -/
theorem split_of_not_mem {β : Type} (A B pre post : List β) (c : β)
    (h : A ++ B = pre ++ c :: post) (hc : c ∉ A) :
    ∃ mid, pre = A ++ mid ∧ B = mid ++ c :: post := by
  induction A generalizing pre with
  | nil => exact ⟨pre, rfl, h⟩
  | cons x rest ih =>
    cases pre with
    | nil =>
      simp only [List.cons_append, List.nil_append, List.cons.injEq] at h
      exact absurd (h.1 ▸ List.mem_cons_self x rest) hc
    | cons y pre2 =>
      simp only [List.cons_append, List.cons.injEq] at h
      obtain ⟨mid, h1, h2⟩ := ih pre2 h.2 (fun hm => hc (List.mem_cons_of_mem _ hm))
      exact ⟨mid, by rw [h.1, h1]; rfl, h2⟩

/-- Splitting `X ++ [z]` at an element other than `z` leaves `z` last. -/
theorem split_before_last {β : Type} (X pre post : List β) (z c : β)
    (h : X ++ [z] = pre ++ c :: post) (hc : c ≠ z) :
    ∃ mid, post = mid ++ [z] ∧ X = pre ++ c :: mid := by
  rcases List.eq_nil_or_concat post with hp | ⟨mid, l, hp⟩
  · subst hp
    have h2 : X ++ [z] = pre ++ [c] := h
    have h3 := List.append_inj_right' h2 rfl
    simp only [List.cons.injEq, and_true] at h3
    exact absurd h3.symm hc
  · subst hp
    have h2 : X ++ [z] = (pre ++ c :: mid) ++ [l] := by
      rw [h]; simp
    have h3 := List.append_inj' h2 rfl
    simp only [List.cons.injEq, and_true] at h3
    exact ⟨mid, by rw [h3.2]; simp, h3.1⟩

theorem countP_isDraw_delivered (es : List Event) :
    List.countP Call.isDraw (es.map (Call.delivered : Event → Call α)) = 0 := by
  induction es with
  | nil => rfl
  | cons e rest ih => simp [List.countP_cons, Call.isDraw]

theorem frameCalls_countP_isDraw (m : Mat4 α) (i : FrameInput) :
    List.countP Call.isDraw (frameCalls m i) = 1 := by
  unfold frameCalls
  split <;> simp [List.countP_append, List.countP_cons, Call.isDraw, countP_isDraw_delivered]

theorem frameCalls_no_condition (m : Mat4 α) (i : FrameInput) (b : Bool) :
    Call.glfwWindowShouldClose b ∉ frameCalls m i := by
  unfold frameCalls
  split <;> simp

theorem frameCalls_quiet (m : Mat4 α) (i : FrameInput) (hq : i.quits = false) :
    ∀ c ∈ frameCalls m i, c.isSignal = false := by
  simp only [FrameInput.quits, Bool.or_eq_false_iff, decide_eq_false_iff_not] at hq
  obtain ⟨h1, h2⟩ := hq
  intro c hc
  simp only [frameCalls, h1, if_false, List.append_nil, List.mem_append, List.mem_cons,
    List.mem_singleton, List.mem_map, List.not_mem_nil, or_false] at hc
  rcases hc with ((rfl | hc) | ⟨e, he, rfl⟩) | rfl
  · simp [Call.isSignal, h1]
  · rcases hc with rfl | rfl | rfl | rfl | rfl | rfl | rfl <;> rfl
  · have h3 := List.any_eq_false.mp h2 e he
    simpa [Call.isSignal] using h3
  · rfl

/-- One iteration issues its draw call before it delivers any event. -/
theorem frameCalls_draw_before_events (m : Mat4 α) (i : FrameInput) :
    ∃ H T : List (Call α), frameCalls m i = H ++ T ∧
      (∀ e, Call.delivered e ∉ H) ∧ (∀ d ∈ T, d.isDraw = false) := by
  refine ⟨[Call.glfwGetKey GLFW_KEY_ESCAPE i.escapeState]
    ++ (if i.escapeState = GLFW_PRESS then [Call.glfwSetWindowShouldClose 1] else [])
    ++ [Call.glClear, Call.glUseProgram, Call.glBindVertexArray, Call.glUniformMatrix4fv m,
      Call.glDrawArrays 0 3, Call.glfwSwapBuffers, Call.glfwPollEvents],
    i.events.map Call.delivered ++ [Call.sleep_for 16], ?_, ?_, ?_⟩
  · simp [frameCalls]
  · intro e
    split <;> simp
  · intro d hd
    simp only [List.mem_append, List.mem_map, List.mem_singleton] at hd
    rcases hd with ⟨e, _, rfl⟩ | rfl <;> rfl

end LogSplit

section QuitClaims

variable {α : Type} [LinearOrderedField α]

theorem loopBody_log (L : LibM α) (s : State α) (i : FrameInput) :
    (loopBody L s i).log =
      s.log ++ frameCalls ((s.projection.mul s.view).mul (loopBody L s i).model) i := by
  simp [loopBody, frameCalls]

theorem renderLoop_of_closed (L : LibM α) (s : State α) (frames : List FrameInput)
    (h : s.window.shouldClose = true) :
    renderLoop L s frames =
      ⟨{ s with log := s.log ++ [Call.glfwWindowShouldClose true] }, true⟩ := by
  cases frames <;> simp [renderLoop, glfwWindowShouldClose, h]

/-- Shape of the log of a run that starts with the close flag clear and no
signal logged: either the loop is still running and no signal is logged, or
the loop was left, and the log is a signal-free part, then the calls of one
last iteration, then the loop condition found false. -/
theorem renderLoop_log (L : LibM α) (frames : List FrameInput) (s : State α)
    (hflag : s.window.shouldClose = false) (hlog : ∀ c ∈ s.log, c.isSignal = false) :
    ((renderLoop L s frames).exited = false ∧
      ∀ c ∈ (renderLoop L s frames).state.log, c.isSignal = false) ∨
    ((renderLoop L s frames).exited = true ∧
      ∃ (A : List (Call α)) (m : Mat4 α) (i : FrameInput),
        (∀ c ∈ A, c.isSignal = false) ∧
        (renderLoop L s frames).state.log =
          A ++ (frameCalls m i ++ [Call.glfwWindowShouldClose true])) := by
  induction frames generalizing s with
  | nil =>
    left
    simp [renderLoop, glfwWindowShouldClose, hflag]
    exact hlog
  | cons i rest ih =>
    have hstep : renderLoop L s (i :: rest) = renderLoop L
        (loopBody L { s with log := s.log ++ [Call.glfwWindowShouldClose false] } i) rest := by
      simp [renderLoop, glfwWindowShouldClose, hflag]
    rw [hstep]
    have hA : ∀ c ∈ s.log ++ [Call.glfwWindowShouldClose false], c.isSignal = false := by
      intro c hc
      rcases List.mem_append.mp hc with h | h
      · exact hlog c h
      · rw [List.mem_singleton.mp h]; rfl
    cases hq : i.quits
    · apply ih
      · rw [loopBody_shouldClose]
        simp [hflag, hq]
      · intro c hc
        rw [loopBody_log] at hc
        rcases List.mem_append.mp hc with h | h
        · exact hA c h
        · exact frameCalls_quiet _ i hq c h
    · right
      rw [renderLoop_of_closed L _ rest (by rw [loopBody_shouldClose]; simp [hq])]
      refine ⟨rfl, s.log ++ [Call.glfwWindowShouldClose false],
        (s.projection.mul s.view).mul (loopBody L
          { s with log := s.log ++ [Call.glfwWindowShouldClose false] } i).model, i, hA, ?_⟩
      simp only [loopBody_log, List.append_assoc]

/-- C3, as the code has it: in any run of the render loop, once a close
request or a pressed Escape has been observed, the log continues without any
further evaluation of the loop condition until the one that finds the loop
condition false, with which the log ends: the loop is left within one
iteration. At most one `glDrawArrays` follows the observation, and none
follows when the signal is an event delivered by `glfwPollEvents`; the one
draw call that can follow is that of the iteration whose key poll saw Escape
pressed. -/
theorem quit_ends_loop_within_one_iteration (L : LibM α) (frames : List FrameInput)
    (pre post : List (Call α)) (c : Call α)
    (hlog : (renderLoop L (setup L) frames).state.log = pre ++ c :: post)
    (hc : c.isSignal = true) :
    (renderLoop L (setup L) frames).exited = true ∧
    (∃ mid, post = mid ++ [Call.glfwWindowShouldClose true] ∧
      ∀ b, Call.glfwWindowShouldClose b ∉ mid) ∧
    List.countP Call.isDraw post ≤ 1 ∧
    ((∃ e, c = Call.delivered e) → ∀ d ∈ post, d.isDraw = false) := by
  rcases renderLoop_log L frames (setup L) rfl (by simp [setup]) with ⟨_, h⟩ | ⟨hx, A, m, i, hA, h⟩
  · have h2 := h c (by rw [hlog]; simp)
    rw [hc] at h2
    exact absurd h2 (by simp)
  · refine ⟨hx, ?_⟩
    rw [h] at hlog
    have hcA : c ∉ A := fun hm => by
      have h2 := hA c hm
      rw [hc] at h2
      exact absurd h2 (by simp)
    obtain ⟨pre2, _, hF⟩ := split_of_not_mem A _ pre post c hlog hcA
    have hcz : c ≠ Call.glfwWindowShouldClose true := fun hz => by
      rw [hz] at hc
      exact absurd hc (by simp [Call.isSignal])
    obtain ⟨mid, hpost, hX⟩ := split_before_last _ pre2 post _ c hF hcz
    refine ⟨⟨mid, hpost, ?_⟩, ?_, ?_⟩
    · intro b hb
      apply frameCalls_no_condition m i b
      rw [hX]
      simp [hb]
    · have h1 := frameCalls_countP_isDraw m i
      rw [hX, List.countP_append, List.countP_cons] at h1
      rw [hpost, List.countP_append]
      have h2 : List.countP Call.isDraw [(Call.glfwWindowShouldClose true : Call α)] = 0 := rfl
      omega
    · rintro ⟨e, rfl⟩
      obtain ⟨H, T, hHT, hH, hT⟩ := frameCalls_draw_before_events m i
      rw [hHT] at hX
      obtain ⟨mid2, _, hT2⟩ := split_of_not_mem H T pre2 mid _ hX (hH e)
      intro d hd
      rw [hpost] at hd
      rcases List.mem_append.mp hd with h3 | h3
      · apply hT
        rw [hT2]
        simp [h3]
      · rw [List.mem_singleton.mp h3]; rfl

end QuitClaims

/-- Witness of the amended C3 over the reals: one frame whose key poll reports
Escape pressed; the split is taken at that poll. -/
theorem quit_ends_loop_within_one_iteration_witness :
    (renderLoop (LibM.mk Real.cos Real.sin Real.tan Real.sqrt) (setup (LibM.mk Real.cos Real.sin Real.tan Real.sqrt)) [⟨0, 0, 1, []⟩]).exited = true ∧
    (∃ mid, List.drop 2 (renderLoop (LibM.mk Real.cos Real.sin Real.tan Real.sqrt) (setup (LibM.mk Real.cos Real.sin Real.tan Real.sqrt)) [⟨0, 0, 1, []⟩]).state.log =
        mid ++ [Call.glfwWindowShouldClose true] ∧
      ∀ b, Call.glfwWindowShouldClose b ∉ mid) ∧
    List.countP Call.isDraw
      (List.drop 2 (renderLoop (LibM.mk Real.cos Real.sin Real.tan Real.sqrt) (setup (LibM.mk Real.cos Real.sin Real.tan Real.sqrt)) [⟨0, 0, 1, []⟩]).state.log) ≤ 1 ∧
    ((∃ e, (Call.glfwGetKey 256 1 : Call ℝ) = Call.delivered e) →
      ∀ d ∈ List.drop 2 (renderLoop (LibM.mk Real.cos Real.sin Real.tan Real.sqrt) (setup (LibM.mk Real.cos Real.sin Real.tan Real.sqrt)) [⟨0, 0, 1, []⟩]).state.log,
        d.isDraw = false) :=
  quit_ends_loop_within_one_iteration (LibM.mk Real.cos Real.sin Real.tan Real.sqrt) [⟨0, 0, 1, []⟩]
    [Call.glfwWindowShouldClose false]
    (List.drop 2 (renderLoop (LibM.mk Real.cos Real.sin Real.tan Real.sqrt) (setup (LibM.mk Real.cos Real.sin Real.tan Real.sqrt)) [⟨0, 0, 1, []⟩]).state.log)
    (Call.glfwGetKey 256 1) rfl rfl

/-- C3 as stated fails: in the run of one frame whose key poll reports Escape
pressed, the observation of the signal is followed by a `glDrawArrays` call. -/
theorem draw_call_after_escape_poll :
    ∃ (pre post : List (Call ℝ)) (c : Call ℝ),
      (renderLoop (LibM.mk Real.cos Real.sin Real.tan Real.sqrt) (setup (LibM.mk Real.cos Real.sin Real.tan Real.sqrt)) [⟨0, 0, 1, []⟩]).state.log = pre ++ c :: post ∧
      c.isSignal = true ∧ Call.glDrawArrays 0 3 ∈ post :=
  ⟨[Call.glfwWindowShouldClose false],
    List.drop 2 (renderLoop (LibM.mk Real.cos Real.sin Real.tan Real.sqrt) (setup (LibM.mk Real.cos Real.sin Real.tan Real.sqrt)) [⟨0, 0, 1, []⟩]).state.log,
    Call.glfwGetKey 256 1, rfl, rfl, by
      simp [renderLoop, loopBody, glfwWindowShouldClose, setup, GLFW_PRESS, glfwPollEvents,
        glfwSetWindowShouldClose]⟩

/-! ## The accumulated rotation in terms of the frame inputs -/

section CompoundClaims

variable {α : Type} [LinearOrderedField α]

theorem executedFrames_length_le (frames : List FrameInput) :
    (executedFrames frames).length ≤ frames.length := by
  induction frames with
  | nil => simp [executedFrames]
  | cons i rest ih =>
    unfold executedFrames
    split
    · simp
    · simpa using ih

end CompoundClaims

end Ogls
